import Mathlib

/-!
Shallow embedding of the Price Negotiation & Booking Conversion Engine
of the AUTOPORT ride-sharing backend (crud/negotiations_crud.py and
routers/negotiations.py), together with proofs of the spec's claims.

Modelling conventions:
* monetary amounts (`Decimal` in the source) are rationals (`ℚ`);
* timestamps are natural numbers counting hours, so `timedelta(hours=24)`
  becomes `+ 24`; `datetime.utcnow()` is an explicit `now` parameter;
* ids (`UUID`) are natural numbers;
* seat counts are integers (`Int`), since the source never clamps them
  and `Trip.available_seats` can be driven below zero;
* a database query that filters rows (`WHERE status = PENDING` etc.) is
  modelled by re-checking the filter on the row handed to the function;
  `scalar_one_or_none` returning no row yields the `none`/unchanged branch;
* an `HTTPException` is an `Except.error` carrying the `detail` string;
  a caught exception that makes the function return `None` is `none`.
-/

namespace Autoport

/-- Status enum `PriceNegotiationStatus` from models.py. -/
inductive PriceNegotiationStatus where
  | PENDING
  | ACCEPTED
  | REJECTED
  | EXPIRED
  deriving DecidableEq, Repr

/-- Status enum `TripStatus` from models.py. -/
inductive TripStatus where
  | SCHEDULED
  | IN_PROGRESS
  | COMPLETED
  | CANCELLED_BY_DRIVER
  | FULL
  deriving DecidableEq, Repr

/-- Status enum `BookingStatus` from models.py. -/
inductive BookingStatus where
  | CONFIRMED
  | CANCELLED_BY_PASSENGER
  | CANCELLED_BY_DRIVER
  deriving DecidableEq, Repr

/-- Role enum `UserRole` from models.py (the roles the negotiation
routers branch on). -/
inductive UserRole where
  | PASSENGER
  | DRIVER
  | ADMIN
  | SUPER_ADMIN
  deriving DecidableEq, Repr

/-- The `Trip` row (models.py), restricted to the fields the negotiation
engine reads or writes. -/
structure Trip where
  id : Nat
  driver_id : Nat
  price_per_seat : ℚ
  total_seats_offered : Int
  available_seats : Int
  status : TripStatus
  price_negotiable : Bool
  deriving DecidableEq, Repr

/-- The `PriceNegotiation` row (models.py). -/
structure PriceNegotiation where
  id : Nat
  trip_id : Nat
  passenger_id : Nat
  original_price : ℚ
  proposed_price : ℚ
  final_price : Option ℚ
  seats_requested : Int
  message : Option String
  status : PriceNegotiationStatus
  expires_at : Nat
  responded_at : Option Nat
  response_message : Option String
  created_at : Nat
  deriving DecidableEq, Repr

/-- The `Booking` row (models.py), restricted to the fields written by
`create_booking_from_negotiation`. -/
structure Booking where
  trip_id : Nat
  passenger_id : Nat
  seats_booked : Int
  total_price : ℚ
  status : BookingStatus
  payment_method : String
  deriving DecidableEq, Repr

/-- Request schema `PriceNegotiationCreate` (schemas.py): a plain
dataclass with no field validation. -/
structure PriceNegotiationCreate where
  trip_id : Nat
  proposed_price : ℚ
  seats_requested : Int
  message : Option String
  deriving DecidableEq, Repr

/-- Request schema `PriceNegotiationResponse` (schemas.py). -/
structure PriceNegotiationResponse where
  response : String
  final_price : Option ℚ
  response_message : Option String
  deriving DecidableEq, Repr

/-- Python truthiness of `a or b` for `Optional[Decimal]` on the left:
`None` and `Decimal("0")` are falsy, so both fall through to `b`.
Used by `respond_to_negotiation` for `response.final_price or
negotiation.proposed_price`. -/
def decimalOrElse (a : Option ℚ) (b : ℚ) : ℚ :=
  match a with
  | none => b
  | some x => if x = 0 then b else x

/-- Python truthiness of `a or b` for `Optional[str]` on the left:
`None` and `""` are falsy. Used by `create_counter_offer` for
`message or f"Counter-offer: ..."`. -/
def strOrElse (a : Option String) (b : String) : String :=
  match a with
  | none => b
  | some s => if s = "" then b else s

/-- `create_booking_from_negotiation` (negotiations_crud.py lines
344-383). Computes `total_price = final_price * seats_requested`, adds a
CONFIRMED booking, decrements `trip.available_seats` by
`seats_requested` with no sufficiency check, and flips the trip to FULL
when the result is `≤ 0`. Reading `final_price` while it is `None`
raises in Python (caught by the caller), modelled by the `none` branch. -/
def create_booking_from_negotiation (negotiation : PriceNegotiation)
    (trip : Trip) : Option (Booking × Trip) :=
  match negotiation.final_price with
  | none => none
  | some fp =>
    let total_price : ℚ := fp * (negotiation.seats_requested : ℚ)
    let booking : Booking :=
      { trip_id := negotiation.trip_id
        passenger_id := negotiation.passenger_id
        seats_booked := negotiation.seats_requested
        total_price := total_price
        status := BookingStatus.CONFIRMED
        payment_method := "negotiated" }
    let seats : Int := trip.available_seats - negotiation.seats_requested
    let trip : Trip :=
      { trip with
        available_seats := seats
        status := if seats ≤ 0 then TripStatus.FULL else trip.status }
    some (booking, trip)

/-- Result of `respond_to_negotiation`: the value returned to the caller
plus the stored rows after the call. -/
structure RespondResult where
  returned : Option PriceNegotiation
  negotiation : PriceNegotiation
  trip : Trip
  new_bookings : List Booking
  deriving DecidableEq, Repr

/-- `respond_to_negotiation` (negotiations_crud.py lines 270-342). The
query selects the row only while `status = PENDING`; a missing row or a
foreign driver returns `None`. A row past `expires_at` is flagged
EXPIRED and `None` is returned. Accepting sets `final_price =
response.final_price or proposed_price` (Python `or`: a `None` *or zero*
override falls back to `proposed_price`) and synchronously runs
`create_booking_from_negotiation`; rejecting only flips the status. -/
def respond_to_negotiation (negotiation : PriceNegotiation) (trip : Trip)
    (driver_id : Nat) (response : PriceNegotiationResponse) (now : Nat) :
    RespondResult :=
  if negotiation.status ≠ PriceNegotiationStatus.PENDING then
    ⟨none, negotiation, trip, []⟩
  else if trip.driver_id ≠ driver_id then
    ⟨none, negotiation, trip, []⟩
  else if negotiation.expires_at ≤ now then
    ⟨none, { negotiation with status := PriceNegotiationStatus.EXPIRED },
      trip, []⟩
  else if response.response = "accept" then
    let fp : ℚ := decimalOrElse response.final_price negotiation.proposed_price
    let neg1 : PriceNegotiation :=
      { negotiation with
        status := PriceNegotiationStatus.ACCEPTED
        final_price := some fp }
    match create_booking_from_negotiation neg1 trip with
    | none => ⟨none, negotiation, trip, []⟩
    | some (booking, trip1) =>
      let neg2 : PriceNegotiation :=
        { neg1 with
          responded_at := some now
          response_message := response.response_message }
      ⟨some neg2, neg2, trip1, [booking]⟩
  else if response.response = "reject" then
    let neg2 : PriceNegotiation :=
      { negotiation with
        status := PriceNegotiationStatus.REJECTED
        responded_at := some now
        response_message := response.response_message }
    ⟨some neg2, neg2, trip, []⟩
  else
    let neg2 : PriceNegotiation :=
      { negotiation with
        responded_at := some now
        response_message := response.response_message }
    ⟨some neg2, neg2, trip, []⟩

/-- Result of `accept_counter_offer`: the returned value plus the
stored rows after the call. -/
structure AcceptCounterResult where
  returned : Option PriceNegotiation
  negotiation : PriceNegotiation
  trip : Trip
  new_bookings : List Booking
  deriving DecidableEq, Repr

/-- `accept_counter_offer` (negotiations_crud.py lines 566-626). The
query requires the row to be PENDING and owned by the calling passenger;
an expired row is flagged EXPIRED with `None` returned; otherwise the
row becomes ACCEPTED with `final_price = proposed_price` and
`create_booking_from_negotiation` runs synchronously. -/
def accept_counter_offer (negotiation : PriceNegotiation) (trip : Trip)
    (passenger_id : Nat) (now : Nat) : AcceptCounterResult :=
  if negotiation.status ≠ PriceNegotiationStatus.PENDING then
    ⟨none, negotiation, trip, []⟩
  else if negotiation.passenger_id ≠ passenger_id then
    ⟨none, negotiation, trip, []⟩
  else if negotiation.expires_at ≤ now then
    ⟨none, { negotiation with status := PriceNegotiationStatus.EXPIRED },
      trip, []⟩
  else
    let neg1 : PriceNegotiation :=
      { negotiation with
        status := PriceNegotiationStatus.ACCEPTED
        final_price := some negotiation.proposed_price
        responded_at := some now
        response_message := some "Counter-offer accepted by passenger" }
    match create_booking_from_negotiation neg1 trip with
    | none => ⟨none, neg1, trip, []⟩
    | some (booking, trip1) => ⟨some neg1, neg1, trip1, [booking]⟩

/-- Outcome of `create_counter_offer`: `notFound` models the `None`
return (missing/non-PENDING row or foreign driver), `invalidPrice`
models the raised `HTTPException` detail, `success` carries the new
counter negotiation row. -/
inductive CounterOutcome where
  | notFound
  | invalidPrice (detail : String)
  | success (counter : PriceNegotiation)
  deriving DecidableEq, Repr

/-- Result of `create_counter_offer`: the outcome plus the original row
as stored after the call. -/
structure CounterResult where
  outcome : CounterOutcome
  original : PriceNegotiation
  deriving DecidableEq, Repr

/-- `create_counter_offer` (negotiations_crud.py lines 432-522). After
the PENDING/ownership checks, a counter price `≥ original_price` or
`≤ proposed_price` raises a 400; otherwise the original row becomes
REJECTED with a "Counter-offer made" response message and a fresh
PENDING row is created for the same trip and passenger with
`proposed_price = counter_price` and `expires_at = now + 12` hours. -/
def create_counter_offer (original : PriceNegotiation) (trip : Trip)
    (driver_id : Nat) (counter_price : ℚ) (message : Option String)
    (now : Nat) : CounterResult :=
  if original.status ≠ PriceNegotiationStatus.PENDING then
    ⟨CounterOutcome.notFound, original⟩
  else if trip.driver_id ≠ driver_id then
    ⟨CounterOutcome.notFound, original⟩
  else if original.original_price ≤ counter_price then
    ⟨CounterOutcome.invalidPrice
      "Counter-offer must be lower than original price.", original⟩
  else if counter_price ≤ original.proposed_price then
    ⟨CounterOutcome.invalidPrice
      "Counter-offer must be higher than passenger's offer.", original⟩
  else
    let original1 : PriceNegotiation :=
      { original with
        status := PriceNegotiationStatus.REJECTED
        responded_at := some now
        response_message :=
          some ("Counter-offer made: " ++ toString counter_price ++ " som") }
    let counter_negotiation : PriceNegotiation :=
      { id := original.id + 1
        trip_id := original.trip_id
        passenger_id := original.passenger_id
        original_price := original.original_price
        proposed_price := counter_price
        final_price := none
        seats_requested := original.seats_requested
        message := some (strOrElse message
          ("Counter-offer: " ++ toString counter_price ++ " som"))
        status := PriceNegotiationStatus.PENDING
        expires_at := now + 12
        responded_at := none
        response_message := none
        created_at := now }
    ⟨CounterOutcome.success counter_negotiation, original1⟩

/-- `cancel_negotiation` (negotiations_crud.py lines 821-851). The query
requires the row to be PENDING and owned by the calling passenger; a
matching row is physically deleted (second component `none`), otherwise
the call returns `False` and the row is untouched. -/
def cancel_negotiation (negotiation : PriceNegotiation)
    (passenger_id : Nat) : Bool × Option PriceNegotiation :=
  if negotiation.status = PriceNegotiationStatus.PENDING ∧
      negotiation.passenger_id = passenger_id then
    (true, none)
  else
    (false, some negotiation)

/-- `create_price_negotiation` (negotiations_crud.py lines 30-169).
The trip query result, the existing-PENDING query result and the
`booking_crud.get_booking_by_trip_and_passenger` result (the latter
lives outside this module) are passed in as the values the session
would return. Validations run in source order; success persists a
PENDING row with `expires_at = now + 24` hours. No lower bound on
`proposed_price` or `seats_requested` is checked anywhere on this path
(the request schema is a plain dataclass). -/
def create_price_negotiation (tripRow : Option Trip) (passenger_id : Nat)
    (negotiation_data : PriceNegotiationCreate) (has_pending : Bool)
    (has_booking : Bool) (now : Nat) : Except String PriceNegotiation :=
  match tripRow with
  | none => Except.error "Trip not found."
  | some trip =>
    if trip.status ≠ TripStatus.SCHEDULED then
      Except.error "Trip is not available for price negotiation."
    else if ¬ trip.price_negotiable then
      Except.error "This trip does not allow price negotiations."
    else if trip.driver_id = passenger_id then
      Except.error "Cannot negotiate price on your own trip."
    else if has_pending then
      Except.error "You already have a pending price negotiation for this trip."
    else if has_booking then
      Except.error "You already have a confirmed booking for this trip."
    else if trip.price_per_seat ≤ negotiation_data.proposed_price then
      Except.error
        "Proposed price must be lower than the original price for negotiation."
    else if trip.available_seats < negotiation_data.seats_requested then
      Except.error "Requested seats exceed available seats."
    else
      Except.ok
        { id := 0
          trip_id := negotiation_data.trip_id
          passenger_id := passenger_id
          original_price := trip.price_per_seat
          proposed_price := negotiation_data.proposed_price
          final_price := none
          seats_requested := negotiation_data.seats_requested
          message := negotiation_data.message
          status := PriceNegotiationStatus.PENDING
          expires_at := now + 24
          responded_at := none
          response_message := none
          created_at := now }

/-- Auto-accept settings dictionary (the three keys
`check_auto_accept_rules` reads). -/
structure AutoAcceptSettings where
  enable_auto_accept : Bool
  min_price_percentage : ℚ
  max_discount_amount : ℚ
  deriving DecidableEq, Repr

/-- `get_auto_accept_settings` (negotiations_crud.py lines 1114-1134):
ignores the store entirely and returns the hardcoded defaults with
auto-accept disabled. -/
def get_auto_accept_settings (driver_id : Nat) : AutoAcceptSettings :=
  { enable_auto_accept := false
    min_price_percentage := 80
    max_discount_amount := 10000 }

/-- `setup_auto_accept_rules` (negotiations_crud.py lines 1072-1112):
builds the rules dictionary but the write to `UserSettings` is commented
out, so it returns `True` and leaves every piece of state unchanged. -/
def setup_auto_accept_rules {σ : Type} (state : σ) (driver_id : Nat)
    (min_price_percentage : ℚ) (max_discount_amount : ℚ)
    (enable_auto_accept : Bool) : Bool × σ :=
  (true, state)

/-- The pure decision inside `check_auto_accept_rules`
(negotiations_crud.py lines 177-197), with the settings dictionary as an
explicit argument. A disabled policy returns `False` before any
arithmetic; with `price_per_seat = 0` the Decimal division raises and
the handler returns `False`; otherwise the thresholds are compared. -/
def check_auto_accept_rules (settings : AutoAcceptSettings)
    (price_per_seat proposed_price : ℚ) : Bool :=
  if ¬ settings.enable_auto_accept then
    false
  else if price_per_seat = 0 then
    false
  else
    let discount_amount : ℚ := price_per_seat - proposed_price
    let price_percentage : ℚ := proposed_price / price_per_seat * 100
    decide (settings.min_price_percentage ≤ price_percentage ∧
      discount_amount ≤ settings.max_discount_amount)

/-- `check_auto_accept_rules` as shipped: the settings come from
`get_auto_accept_settings` for the trip's driver (negotiations_crud.py
lines 179-184). -/
def check_auto_accept_rules_shipped (driver_id : Nat)
    (price_per_seat proposed_price : ℚ) : Bool :=
  check_auto_accept_rules (get_auto_accept_settings driver_id)
    price_per_seat proposed_price

/-- The per-row effect of the sweep UPDATE in `expire_old_negotiations`:
a PENDING row past its deadline becomes EXPIRED, every other row is
untouched. -/
def expireRow (now : Nat) (n : PriceNegotiation) : PriceNegotiation :=
  if n.status = PriceNegotiationStatus.PENDING ∧ n.expires_at ≤ now then
    { n with status := PriceNegotiationStatus.EXPIRED }
  else
    n

/-- Whether the sweep UPDATE matches a row. -/
def expireMatches (now : Nat) (n : PriceNegotiation) : Bool :=
  decide (n.status = PriceNegotiationStatus.PENDING ∧ n.expires_at ≤ now)

/-- `expire_old_negotiations` (negotiations_crud.py lines 1368-1390): a
single UPDATE setting `status = EXPIRED` on every PENDING row with
`expires_at ≤ now`, returning the table after the sweep and the
rowcount. -/
def expire_old_negotiations (negotiations : List PriceNegotiation)
    (now : Nat) : List PriceNegotiation × Nat :=
  (negotiations.map (expireRow now),
    (negotiations.filter (expireMatches now)).length)

/-- The router handler `respond_to_price_negotiation`
(routers/negotiations.py lines 161-201): non-drivers get a 403, a `None`
from the CRUD layer becomes a 404 with a single detail string used for
every failure cause (missing, foreign, or expired row). -/
def respond_to_price_negotiation (role : UserRole)
    (negotiation : PriceNegotiation) (trip : Trip) (driver_id : Nat)
    (response : PriceNegotiationResponse) (now : Nat) :
    Except String PriceNegotiation :=
  if role ≠ UserRole.DRIVER then
    Except.error "Only drivers can respond to price negotiations."
  else
    match (respond_to_negotiation negotiation trip driver_id response now).returned with
    | none =>
      Except.error
        "Price negotiation not found or you don't have permission to respond."
    | some n => Except.ok n

/-! Concrete sample rows used to exercise the definitions. They follow
the end-to-end scenario of the spec: a SCHEDULED, negotiable trip at
20000 som per seat with 3 available seats, and a pending offer of
16000 som for 2 seats created at hour 0 (so it expires at hour 24). -/

/-- A SCHEDULED negotiable trip, driver 1, 20000 som per seat, 3 seats. -/
def sampleTrip : Trip :=
  { id := 10
    driver_id := 1
    price_per_seat := 20000
    total_seats_offered := 3
    available_seats := 3
    status := TripStatus.SCHEDULED
    price_negotiable := true }

/-- A PENDING offer by passenger 2 on `sampleTrip`: 16000 som for 2
seats, created at hour 0, expiring at hour 24. -/
def sampleNegotiation : PriceNegotiation :=
  { id := 100
    trip_id := 10
    passenger_id := 2
    original_price := 20000
    proposed_price := 16000
    final_price := none
    seats_requested := 2
    message := none
    status := PriceNegotiationStatus.PENDING
    expires_at := 24
    responded_at := none
    response_message := none
    created_at := 0 }

/-- A create request matching `sampleNegotiation`. -/
def sampleRequest : PriceNegotiationCreate :=
  { trip_id := 10
    proposed_price := 16000
    seats_requested := 2
    message := none }

/-- A create request asking for zero seats; no code path validates a
lower bound on `seats_requested`. -/
def zeroSeatRequest : PriceNegotiationCreate :=
  { trip_id := 10
    proposed_price := 16000
    seats_requested := 0
    message := none }

/-- `sampleTrip` after other bookings consumed all but one seat. -/
def overbookedTrip : Trip :=
  { sampleTrip with available_seats := 1 }

/-- `sampleNegotiation` after a terminal transition to ACCEPTED. -/
def acceptedNegotiation : PriceNegotiation :=
  { sampleNegotiation with status := PriceNegotiationStatus.ACCEPTED }

/-- Claim C1: the spec says the booking converter re-validates
`available_seats ≥ seats_requested` and fails the conversion (creating
no reservation) when seats are insufficient, so `available_seats` never
goes negative. The code has no such check: accepting a PENDING offer
for 2 seats on a trip with only 1 seat left creates a CONFIRMED booking
anyway and drives `available_seats` to -1. This evaluates the shipped
accept path at that failing input. -/
theorem C1_no_oversell_code_bug :
    overbookedTrip.available_seats < sampleNegotiation.seats_requested ∧
    (respond_to_negotiation sampleNegotiation overbookedTrip 1
      ⟨"accept", none, none⟩ 0).negotiation.status =
      PriceNegotiationStatus.ACCEPTED ∧
    (respond_to_negotiation sampleNegotiation overbookedTrip 1
      ⟨"accept", none, none⟩ 0).new_bookings =
      [{ trip_id := 10
         passenger_id := 2
         seats_booked := 2
         total_price := 32000
         status := BookingStatus.CONFIRMED
         payment_method := "negotiated" }] ∧
    (respond_to_negotiation sampleNegotiation overbookedTrip 1
      ⟨"accept", none, none⟩ 0).trip.available_seats = -1 := by
  refine ⟨by decide, rfl, ?_, rfl⟩
  have h : (respond_to_negotiation sampleNegotiation overbookedTrip 1
      ⟨"accept", none, none⟩ 0).new_bookings =
      [{ trip_id := 10
         passenger_id := 2
         seats_booked := 2
         total_price := (16000 : ℚ) * ((2 : Int) : ℚ)
         status := BookingStatus.CONFIRMED
         payment_method := "negotiated" }] := rfl
  rw [h]
  norm_num

/-- Claim C3: the policy evaluation auto-accepts iff the policy is
enabled, `proposed/original*100 ≥ minPricePercentage` and
`original - proposed ≤ maxDiscountAmount`; with the spec's example
policy, 17000 of 20000 auto-accepts and 15000 does not. -/
theorem C3_auto_accept_iff (settings : AutoAcceptSettings)
    (original_price proposed_price : ℚ) (hpos : 0 < original_price) :
    (check_auto_accept_rules settings original_price proposed_price = true ↔
      (settings.enable_auto_accept = true ∧
        settings.min_price_percentage ≤
          proposed_price / original_price * 100 ∧
        original_price - proposed_price ≤ settings.max_discount_amount)) ∧
    check_auto_accept_rules ⟨true, 80, 10000⟩ 20000 17000 = true ∧
    check_auto_accept_rules ⟨true, 80, 10000⟩ 20000 15000 = false := by
  have hne : original_price ≠ 0 := ne_of_gt hpos
  refine ⟨?_, by norm_num [check_auto_accept_rules],
    by norm_num [check_auto_accept_rules]⟩
  by_cases he : settings.enable_auto_accept
  · simp [check_auto_accept_rules, he, hne]
  · simp [check_auto_accept_rules, he]

/-- Witness for C3 at the spec's example inputs. -/
theorem C3_auto_accept_iff_witness :
    (0 : ℚ) < 20000 ∧
    (check_auto_accept_rules ⟨true, 80, 10000⟩ 20000 17000 = true ↔
      ((true : Bool) = true ∧ (80 : ℚ) ≤ 17000 / 20000 * 100 ∧
        (20000 : ℚ) - 17000 ≤ 10000)) :=
  ⟨by decide, (C3_auto_accept_iff ⟨true, 80, 10000⟩ 20000 17000 (by decide)).1⟩

/-- Claim C10: the settings read at offer creation are the hardcoded
defaults with auto-accept disabled, the setup operation persists
nothing, and therefore the shipped auto-accept check returns false for
every offer. -/
theorem C10_auto_accept_never_fires {σ : Type} (state : σ)
    (driver_id : Nat) (min_price_percentage max_discount_amount : ℚ)
    (enable_auto_accept : Bool) (price_per_seat proposed_price : ℚ) :
    get_auto_accept_settings driver_id =
      { enable_auto_accept := false
        min_price_percentage := 80
        max_discount_amount := 10000 } ∧
    setup_auto_accept_rules state driver_id min_price_percentage
      max_discount_amount enable_auto_accept = (true, state) ∧
    check_auto_accept_rules_shipped driver_id price_per_seat
      proposed_price = false := by
  refine ⟨rfl, rfl, ?_⟩
  simp [check_auto_accept_rules_shipped, check_auto_accept_rules,
    get_auto_accept_settings]

/-- Claim C2: terminal statuses are frozen. Every mutating operation
(respond, counter-offer, accept-counter, cancel, and the expiry sweep's
per-row effect) filters on `status = PENDING` first, so a negotiation
whose status is ACCEPTED, REJECTED or EXPIRED is returned unchanged by
all of them. -/
theorem C2_terminal_states_frozen (n : PriceNegotiation)
    (h : n.status ≠ PriceNegotiationStatus.PENDING) (trip : Trip)
    (driver_id passenger_id : Nat) (response : PriceNegotiationResponse)
    (counter_price : ℚ) (message : Option String) (now : Nat) :
    respond_to_negotiation n trip driver_id response now =
      ⟨none, n, trip, []⟩ ∧
    create_counter_offer n trip driver_id counter_price message now =
      ⟨CounterOutcome.notFound, n⟩ ∧
    accept_counter_offer n trip passenger_id now = ⟨none, n, trip, []⟩ ∧
    cancel_negotiation n passenger_id = (false, some n) ∧
    expireRow now n = n := by
  refine ⟨?_, ?_, ?_, ?_, ?_⟩
  · simp [respond_to_negotiation, h]
  · simp [create_counter_offer, h]
  · simp [accept_counter_offer, h]
  · simp [cancel_negotiation, h]
  · simp [expireRow, expireMatches, h]

/-- Witness for C2: an ACCEPTED negotiation is untouched by a further
respond call. -/
theorem C2_terminal_states_frozen_witness :
    acceptedNegotiation.status ≠ PriceNegotiationStatus.PENDING ∧
    respond_to_negotiation acceptedNegotiation sampleTrip 1
      ⟨"accept", none, none⟩ 30 =
      ⟨none, acceptedNegotiation, sampleTrip, []⟩ ∧
    expireRow 30 acceptedNegotiation = acceptedNegotiation :=
  ⟨by decide,
    (C2_terminal_states_frozen acceptedNegotiation (by decide) sampleTrip 1 2
      ⟨"accept", none, none⟩ 18000 none 30).1,
    (C2_terminal_states_frozen acceptedNegotiation (by decide) sampleTrip 1 2
      ⟨"accept", none, none⟩ 18000 none 30).2.2.2.2⟩

/-- A row that has just been swept no longer matches the sweep filter. -/
lemma expireRow_not_matches (now : Nat) (n : PriceNegotiation) :
    expireMatches now (expireRow now n) = false := by
  unfold expireRow expireMatches
  by_cases h : n.status = PriceNegotiationStatus.PENDING ∧ n.expires_at ≤ now
  · simp [h]
  · simp [h]

/-- The per-row sweep effect is idempotent. -/
lemma expireRow_idem (now : Nat) (n : PriceNegotiation) :
    expireRow now (expireRow now n) = expireRow now n := by
  unfold expireRow
  by_cases hm : n.status = PriceNegotiationStatus.PENDING ∧ n.expires_at ≤ now
  · simp [hm]
  · simp [hm]

/-- A swept table swept again is unchanged. -/
lemma sweep_map_idem (now : Nat) (l : List PriceNegotiation) :
    (l.map (expireRow now)).map (expireRow now) = l.map (expireRow now) := by
  induction l with
  | nil => rfl
  | cons head tail ih => simp [expireRow_idem, ih]

/-- No row of a swept table matches the sweep filter. -/
lemma sweep_filter_nil (now : Nat) (l : List PriceNegotiation) :
    (l.map (expireRow now)).filter (expireMatches now) = [] := by
  induction l with
  | nil => rfl
  | cons head tail ih => simp [expireRow_not_matches, ih]

/-- Claim C9: the sweep transitions exactly the PENDING rows past their
deadline, and an immediately repeated sweep with the same clock changes
no row, reports zero expired rows, and leaves already-EXPIRED rows
unchanged. -/
theorem C9_sweep_idempotent (negotiations : List PriceNegotiation)
    (now : Nat) :
    (∀ n ∈ negotiations,
      (n.status = PriceNegotiationStatus.PENDING ∧ n.expires_at ≤ now →
        expireRow now n =
          { n with status := PriceNegotiationStatus.EXPIRED }) ∧
      (¬ (n.status = PriceNegotiationStatus.PENDING ∧ n.expires_at ≤ now) →
        expireRow now n = n)) ∧
    expire_old_negotiations (expire_old_negotiations negotiations now).1 now =
      ((expire_old_negotiations negotiations now).1, 0) := by
  constructor
  · intro n _
    constructor
    · intro hc
      simp [expireRow, hc]
    · intro hc
      simp [expireRow, hc]
  · unfold expire_old_negotiations
    rw [sweep_map_idem now negotiations, sweep_filter_nil now negotiations]
    rfl

/-- Witness for C9 on a two-row table: one stale PENDING offer and one
fresh one. -/
theorem C9_sweep_idempotent_witness :
    sampleNegotiation ∈ [sampleNegotiation] ∧
    (sampleNegotiation.status = PriceNegotiationStatus.PENDING ∧
      sampleNegotiation.expires_at ≤ 30) ∧
    expireRow 30 sampleNegotiation =
      { sampleNegotiation with status := PriceNegotiationStatus.EXPIRED } ∧
    expire_old_negotiations
      (expire_old_negotiations [sampleNegotiation] 30).1 30 =
      ((expire_old_negotiations [sampleNegotiation] 30).1, 0) :=
  ⟨List.mem_singleton.mpr rfl, by decide,
    ((C9_sweep_idempotent [sampleNegotiation] 30).1 sampleNegotiation
      (List.mem_singleton.mpr rfl)).1 (by decide),
    (C9_sweep_idempotent [sampleNegotiation] 30).2⟩

/-- Claim C8: responding to a negotiation past `expires_at` never
accepts or rejects it and creates no booking; the CRUD layer returns
`None` (marking a still-PENDING row EXPIRED), and the router surfaces
the same 404 error whether the sweep has already flagged the row
EXPIRED or not. -/
theorem C8_expired_respond_fails (n : PriceNegotiation) (trip : Trip)
    (driver_id : Nat) (response : PriceNegotiationResponse) (now : Nat)
    (hexp : n.expires_at ≤ now) :
    (respond_to_negotiation n trip driver_id response now).returned =
      none ∧
    (respond_to_negotiation n trip driver_id response now).new_bookings =
      [] ∧
    ((respond_to_negotiation n trip driver_id response now).negotiation.status
        = n.status ∨
      (n.status = PriceNegotiationStatus.PENDING ∧
        (respond_to_negotiation n trip driver_id response
          now).negotiation.status = PriceNegotiationStatus.EXPIRED)) ∧
    respond_to_price_negotiation UserRole.DRIVER n trip driver_id response
      now = Except.error
        "Price negotiation not found or you don't have permission to respond." ∧
    respond_to_price_negotiation UserRole.DRIVER
      { n with status := PriceNegotiationStatus.EXPIRED } trip driver_id
      response now = Except.error
        "Price negotiation not found or you don't have permission to respond." := by
  by_cases hs : n.status = PriceNegotiationStatus.PENDING
  · by_cases hd : trip.driver_id = driver_id
    · refine ⟨?_, ?_, Or.inr ⟨hs, ?_⟩, ?_, ?_⟩ <;>
        simp [respond_to_negotiation, respond_to_price_negotiation, hs, hd,
          hexp]
    · refine ⟨?_, ?_, Or.inl ?_, ?_, ?_⟩ <;>
        simp [respond_to_negotiation, respond_to_price_negotiation, hs, hd,
          hexp]
  · refine ⟨?_, ?_, Or.inl ?_, ?_, ?_⟩ <;>
      simp [respond_to_negotiation, respond_to_price_negotiation, hs]

/-- Witness for C8: the sample offer at hour 30, six hours past its
deadline. -/
theorem C8_expired_respond_fails_witness :
    sampleNegotiation.expires_at ≤ 30 ∧
    (respond_to_negotiation sampleNegotiation sampleTrip 1
      ⟨"accept", none, none⟩ 30).returned = none ∧
    respond_to_price_negotiation UserRole.DRIVER sampleNegotiation
      sampleTrip 1 ⟨"accept", none, none⟩ 30 = Except.error
        "Price negotiation not found or you don't have permission to respond." :=
  ⟨by decide,
    (C8_expired_respond_fails sampleNegotiation sampleTrip 1
      ⟨"accept", none, none⟩ 30 (by decide)).1,
    (C8_expired_respond_fails sampleNegotiation sampleTrip 1
      ⟨"accept", none, none⟩ 30 (by decide)).2.2.2.1⟩

/-- Shape of a successfully created negotiation: every `Except.ok`
result of `create_price_negotiation` is a PENDING row expiring 24 hours
after creation, carrying the request's fields and the trip's price
snapshot. -/
lemma create_price_negotiation_ok_shape (tripRow : Option Trip)
    (passenger_id : Nat) (negotiation_data : PriceNegotiationCreate)
    (has_pending has_booking : Bool) (now : Nat) (n : PriceNegotiation)
    (h : create_price_negotiation tripRow passenger_id negotiation_data
      has_pending has_booking now = Except.ok n) :
    n.status = PriceNegotiationStatus.PENDING ∧
    n.expires_at = now + 24 ∧
    n.trip_id = negotiation_data.trip_id ∧
    n.passenger_id = passenger_id ∧
    n.proposed_price = negotiation_data.proposed_price ∧
    n.seats_requested = negotiation_data.seats_requested ∧
    n.final_price = none ∧
    n.created_at = now ∧
    ∃ trip, tripRow = some trip ∧
      n.original_price = trip.price_per_seat := by
  cases tripRow with
  | none => simp [create_price_negotiation] at h
  | some trip =>
    simp only [create_price_negotiation] at h
    split_ifs at h
    rw [Except.ok.injEq] at h
    subst h
    exact ⟨rfl, rfl, rfl, rfl, rfl, rfl, rfl, rfl, trip, rfl, rfl⟩

/-- Claim C6: a counter-offer on a PENDING negotiation succeeds exactly
when the counter price is strictly between the buyer's proposed price
and the original price; a counter price equal to either bound (or
outside them) raises a 400 error, creates no new negotiation, and
leaves the original row untouched. -/
theorem C6_counter_offer_bounds (original : PriceNegotiation)
    (trip : Trip) (driver_id : Nat) (counter_price : ℚ)
    (message : Option String) (now : Nat)
    (hs : original.status = PriceNegotiationStatus.PENDING)
    (hd : trip.driver_id = driver_id) :
    ((∃ c, (create_counter_offer original trip driver_id counter_price
        message now).outcome = CounterOutcome.success c) ↔
      (original.proposed_price < counter_price ∧
        counter_price < original.original_price)) ∧
    (¬ (original.proposed_price < counter_price ∧
        counter_price < original.original_price) →
      ∃ detail, create_counter_offer original trip driver_id counter_price
        message now = ⟨CounterOutcome.invalidPrice detail, original⟩) := by
  by_cases hhi : original.original_price ≤ counter_price
  · constructor
    · simp [create_counter_offer, hs, hd, hhi, not_lt.mpr hhi]
    · intro _
      exact ⟨"Counter-offer must be lower than original price.",
        by simp [create_counter_offer, hs, hd, hhi]⟩
  · by_cases hlo : counter_price ≤ original.proposed_price
    · constructor
      · simp [create_counter_offer, hs, hd, hhi, hlo, not_lt.mpr hlo]
      · intro _
        exact ⟨"Counter-offer must be higher than passenger's offer.",
          by simp [create_counter_offer, hs, hd, hhi, hlo]⟩
    · constructor
      · simp [create_counter_offer, hs, hd, hhi, hlo, not_le.mp hhi,
          not_le.mp hlo]
      · intro hcontra
        exact absurd ⟨not_le.mp hlo, not_le.mp hhi⟩ hcontra

/-- Witness for C6: a counter equal to the buyer's 16000 offer is
rejected on the sample negotiation, and 18000 is accepted. -/
theorem C6_counter_offer_bounds_witness :
    sampleNegotiation.status = PriceNegotiationStatus.PENDING ∧
    sampleTrip.driver_id = 1 ∧
    (∃ detail, create_counter_offer sampleNegotiation sampleTrip 1 16000
      none 0 = ⟨CounterOutcome.invalidPrice detail, sampleNegotiation⟩) ∧
    (∃ c, (create_counter_offer sampleNegotiation sampleTrip 1 18000
      none 0).outcome = CounterOutcome.success c) :=
  ⟨by decide, by decide,
    (C6_counter_offer_bounds sampleNegotiation sampleTrip 1 16000 none 0
      (by decide) (by decide)).2 (by decide),
    (C6_counter_offer_bounds sampleNegotiation sampleTrip 1 18000 none 0
      (by decide) (by decide)).1.mpr ⟨by decide, by decide⟩⟩

/-- Claim C7: a valid counter-offer rejects the original (recording a
"Counter-offer made" reason) and creates a fresh PENDING negotiation for
the same trip and passenger whose proposed price is the counter price
and whose deadline is `now + 12` hours — strictly shorter than the
`now + 24`-hour window `create_price_negotiation` gives standard
offers. -/
theorem C7_counter_offer_success (original : PriceNegotiation)
    (trip : Trip) (driver_id : Nat) (counter_price : ℚ)
    (message : Option String) (now : Nat)
    (hs : original.status = PriceNegotiationStatus.PENDING)
    (hd : trip.driver_id = driver_id)
    (hlo : original.proposed_price < counter_price)
    (hhi : counter_price < original.original_price) :
    ∃ counter,
      create_counter_offer original trip driver_id counter_price message
        now =
        ⟨CounterOutcome.success counter,
          { original with
            status := PriceNegotiationStatus.REJECTED
            responded_at := some now
            response_message := some ("Counter-offer made: " ++
              toString counter_price ++ " som") }⟩ ∧
      counter.trip_id = original.trip_id ∧
      counter.passenger_id = original.passenger_id ∧
      counter.proposed_price = counter_price ∧
      counter.seats_requested = original.seats_requested ∧
      counter.status = PriceNegotiationStatus.PENDING ∧
      counter.expires_at = now + 12 ∧
      (∀ tripRow passenger_id negotiation_data has_pending has_booking n2,
        create_price_negotiation tripRow passenger_id negotiation_data
          has_pending has_booking now = Except.ok n2 →
        counter.expires_at < n2.expires_at) := by
  refine ⟨{ id := original.id + 1
            trip_id := original.trip_id
            passenger_id := original.passenger_id
            original_price := original.original_price
            proposed_price := counter_price
            final_price := none
            seats_requested := original.seats_requested
            message := some (strOrElse message
              ("Counter-offer: " ++ toString counter_price ++ " som"))
            status := PriceNegotiationStatus.PENDING
            expires_at := now + 12
            responded_at := none
            response_message := none
            created_at := now }, ?_, rfl, rfl, rfl, rfl, rfl, rfl, ?_⟩
  · simp [create_counter_offer, hs, hd, not_le.mpr hlo, not_le.mpr hhi]
  · intro tripRow passenger_id negotiation_data has_pending has_booking n2 h2
    have hexp : n2.expires_at = now + 24 :=
      (create_price_negotiation_ok_shape tripRow passenger_id
        negotiation_data has_pending has_booking now n2 h2).2.1
    rw [hexp]
    show now + 12 < now + 24
    omega

/-- Witness for C7: countering the sample 16000 offer at 18000. -/
theorem C7_counter_offer_success_witness :
    (16000 : ℚ) < 18000 ∧ (18000 : ℚ) < 20000 ∧
    ∃ counter,
      create_counter_offer sampleNegotiation sampleTrip 1 18000 none 0 =
        ⟨CounterOutcome.success counter,
          { sampleNegotiation with
            status := PriceNegotiationStatus.REJECTED
            responded_at := some 0
            response_message := some ("Counter-offer made: " ++
              toString (18000 : ℚ) ++ " som") }⟩ ∧
      counter.proposed_price = 18000 ∧
      counter.status = PriceNegotiationStatus.PENDING ∧
      counter.expires_at = 0 + 12 :=
  ⟨by decide, by decide, by
    obtain ⟨c, hc, _, _, hp, _, hst, hexp, _⟩ :=
      C7_counter_offer_success sampleNegotiation sampleTrip 1 18000 none 0
        (by decide) (by decide) (by decide) (by decide)
    exact ⟨c, hc, hp, hst, hexp⟩⟩

/-- Claim C4 counterexample: the claim requires `1 ≤ seats_requested`
(and `0 ≤ proposed_price`) as creation preconditions, but no code on
the create path checks a lower bound: a request for zero seats that
passes every implemented check is persisted instead of failing. -/
theorem C4_lower_bounds_counterexample :
    (∃ n, create_price_negotiation (some sampleTrip) 2 zeroSeatRequest
      false false 0 = Except.ok n) ∧
    ¬ (1 ≤ zeroSeatRequest.seats_requested) :=
  ⟨⟨_, rfl⟩, by decide⟩

/-- Claim C4 (amended: without the unimplemented lower bounds on
`proposed_price` and `seats_requested`): a negotiation is persisted iff
the trip exists with status SCHEDULED and allows negotiation, the buyer
is not the driver, no PENDING negotiation and no confirmed booking
exist for the pair, `proposed_price < price_per_seat`, and
`seats_requested ≤ available_seats`; on success the persisted row is
PENDING with `expires_at = now + 24` hours, and any violated check
yields a typed error instead. -/
theorem C4_create_validations (tripRow : Option Trip)
    (passenger_id : Nat) (negotiation_data : PriceNegotiationCreate)
    (has_pending has_booking : Bool) (now : Nat) :
    ((∃ n, create_price_negotiation tripRow passenger_id negotiation_data
        has_pending has_booking now = Except.ok n) ↔
      (∃ trip, tripRow = some trip ∧
        trip.status = TripStatus.SCHEDULED ∧
        trip.price_negotiable = true ∧
        trip.driver_id ≠ passenger_id ∧
        has_pending = false ∧
        has_booking = false ∧
        negotiation_data.proposed_price < trip.price_per_seat ∧
        negotiation_data.seats_requested ≤ trip.available_seats)) ∧
    (∀ n, create_price_negotiation tripRow passenger_id negotiation_data
        has_pending has_booking now = Except.ok n →
      n.status = PriceNegotiationStatus.PENDING ∧
        n.expires_at = now + 24) := by
  constructor
  · constructor
    · rintro ⟨n, hn⟩
      cases tripRow with
      | none => simp [create_price_negotiation] at hn
      | some trip =>
        simp only [create_price_negotiation] at hn
        split_ifs at hn with h1 h2 h3 h4 h5 h6 h7
        exact ⟨trip, rfl, not_not.mp h1, h2, h3,
          Bool.eq_false_iff.mpr h4, Bool.eq_false_iff.mpr h5,
          not_le.mp h6, not_lt.mp h7⟩
    · rintro ⟨trip, rfl, hsched, hneg, hdr, hp, hb, hprice, hseats⟩
      subst hp
      subst hb
      exact ⟨{ id := 0
               trip_id := negotiation_data.trip_id
               passenger_id := passenger_id
               original_price := trip.price_per_seat
               proposed_price := negotiation_data.proposed_price
               final_price := none
               seats_requested := negotiation_data.seats_requested
               message := negotiation_data.message
               status := PriceNegotiationStatus.PENDING
               expires_at := now + 24
               responded_at := none
               response_message := none
               created_at := now },
        by simp [create_price_negotiation, hsched, hneg, hdr,
          not_le.mpr hprice, not_lt.mpr hseats]⟩
  · intro n hn
    have h := create_price_negotiation_ok_shape tripRow passenger_id
      negotiation_data has_pending has_booking now n hn
    exact ⟨h.1, h.2.1⟩

/-- Witness for C4 on the sample trip and request. -/
theorem C4_create_validations_witness :
    ∃ n, create_price_negotiation (some sampleTrip) 2 sampleRequest
        false false 0 = Except.ok n ∧
      n.status = PriceNegotiationStatus.PENDING ∧
      n.expires_at = 0 + 24 := by
  obtain ⟨n, hn⟩ :=
    (C4_create_validations (some sampleTrip) 2 sampleRequest false false
      0).1.mpr
      ⟨sampleTrip, rfl, rfl, rfl, by decide, rfl, rfl, by decide,
        by decide⟩
  exact ⟨n, hn,
    (C4_create_validations (some sampleTrip) 2 sampleRequest false false
      0).2 n hn⟩

/-- Claim C5 counterexample: acceptance with an explicit override of 0
does not record the override; `response.final_price or proposed_price`
treats the zero Decimal as falsy and stores the proposed 16000 som
instead. -/
theorem C5_zero_override_counterexample :
    (respond_to_negotiation sampleNegotiation sampleTrip 1
      ⟨"accept", some 0, none⟩ 0).negotiation.final_price =
      some 16000 ∧
    some (0 : ℚ) ≠ some (16000 : ℚ) :=
  ⟨rfl, by decide⟩

/-- Claim C5 (amended: a zero override falls back to `proposed_price`
just like an absent one, because the source uses Python `or` on the
Decimal): accepting a PENDING, unexpired negotiation stores it as
ACCEPTED with `final_price` equal to a non-zero explicit override and
otherwise to `proposed_price`, stamps `responded_at = now`, creates
exactly one CONFIRMED booking with `seats_booked = seats_requested` and
`total_price = final_price * seats_requested`, and decrements the
trip's `available_seats` by `seats_requested`. -/
theorem C5_accept_creates_booking (negotiation : PriceNegotiation)
    (trip : Trip) (driver_id : Nat)
    (response : PriceNegotiationResponse) (now : Nat)
    (hs : negotiation.status = PriceNegotiationStatus.PENDING)
    (hd : trip.driver_id = driver_id)
    (hexp : now < negotiation.expires_at)
    (hacc : response.response = "accept") :
    (respond_to_negotiation negotiation trip driver_id response
        now).negotiation =
      { negotiation with
        status := PriceNegotiationStatus.ACCEPTED
        final_price := some (decimalOrElse response.final_price
          negotiation.proposed_price)
        responded_at := some now
        response_message := response.response_message } ∧
    (respond_to_negotiation negotiation trip driver_id response
        now).returned =
      some ((respond_to_negotiation negotiation trip driver_id response
        now).negotiation) ∧
    (respond_to_negotiation negotiation trip driver_id response
        now).new_bookings =
      [{ trip_id := negotiation.trip_id
         passenger_id := negotiation.passenger_id
         seats_booked := negotiation.seats_requested
         total_price := decimalOrElse response.final_price
           negotiation.proposed_price * (negotiation.seats_requested : ℚ)
         status := BookingStatus.CONFIRMED
         payment_method := "negotiated" }] ∧
    (respond_to_negotiation negotiation trip driver_id response
        now).trip.available_seats =
      trip.available_seats - negotiation.seats_requested ∧
    (response.final_price = none →
      decimalOrElse response.final_price negotiation.proposed_price =
        negotiation.proposed_price) ∧
    (∀ p, response.final_price = some p → p ≠ 0 →
      decimalOrElse response.final_price negotiation.proposed_price = p) ∧
    (response.final_price = some 0 →
      decimalOrElse response.final_price negotiation.proposed_price =
        negotiation.proposed_price) := by
  have hnl : ¬ negotiation.expires_at ≤ now := not_le.mpr hexp
  refine ⟨?_, ?_, ?_, ?_, ?_, ?_, ?_⟩
  · simp [respond_to_negotiation, create_booking_from_negotiation, hs,
      hd, hacc, hnl]
  · simp [respond_to_negotiation, create_booking_from_negotiation, hs,
      hd, hacc, hnl]
  · simp [respond_to_negotiation, create_booking_from_negotiation, hs,
      hd, hacc, hnl]
  · simp [respond_to_negotiation, create_booking_from_negotiation, hs,
      hd, hacc, hnl]
  · intro h
    simp [decimalOrElse, h]
  · intro p hp hne
    simp [decimalOrElse, hp, hne]
  · intro h
    simp [decimalOrElse, h]

/-- Witness for C5: accepting the sample offer with an explicit 18000
override. -/
theorem C5_accept_creates_booking_witness :
    (respond_to_negotiation sampleNegotiation sampleTrip 1
      ⟨"accept", some 18000, none⟩ 0).negotiation =
      { sampleNegotiation with
        status := PriceNegotiationStatus.ACCEPTED
        final_price := some (decimalOrElse (some 18000)
          sampleNegotiation.proposed_price)
        responded_at := some 0
        response_message := none } ∧
    (respond_to_negotiation sampleNegotiation sampleTrip 1
      ⟨"accept", some 18000, none⟩ 0).trip.available_seats =
      sampleTrip.available_seats - sampleNegotiation.seats_requested :=
  ⟨(C5_accept_creates_booking sampleNegotiation sampleTrip 1
      ⟨"accept", some 18000, none⟩ 0 (by decide) (by decide) (by decide)
      (by decide)).1,
    (C5_accept_creates_booking sampleNegotiation sampleTrip 1
      ⟨"accept", some 18000, none⟩ 0 (by decide) (by decide) (by decide)
      (by decide)).2.2.2.1⟩

end Autoport
